import Mathlib

/-!
Verification of the newsapi client library (src/index.js): a shallow
embedding of its data model and operations in Lean 4, with theorems
settling the specification claims.

JavaScript values are modelled by an inductive `JSValue`; callbacks are
modelled by a `JSValue.func` tag together with an explicit behaviour
function (what each invocation of the callback returns or throws).
The asynchronous dispatcher `getDataFromWeb` is modelled as a pure
function from the (externally supplied) transport result to a trace
recording every callback invocation, the settlement of the returned
promise, and any uncaught exception.
-/

/-- Model of a JavaScript value, as far as this library inspects values:
`typeof` tags, objects as insertion-ordered association lists, arrays,
and function values identified by an opaque tag. -/
inductive JSValue : Type where
  | undefined : JSValue
  | null : JSValue
  | bool : Bool → JSValue
  | num : Int → JSValue
  | str : String → JSValue
  | obj : List (String × JSValue) → JSValue
  | arr : List JSValue → JSValue
  | func : Nat → JSValue

/-- JavaScript's `typeof` operator on modelled values.  Note the
JavaScript quirk that `typeof null` is the string "object". -/
def typeofJS : JSValue → String
  | .undefined => "undefined"
  | .null => "object"
  | .bool _ => "boolean"
  | .num _ => "number"
  | .str _ => "string"
  | .obj _ => "object"
  | .arr _ => "object"
  | .func _ => "function"

/-- JavaScript truthiness of a modelled value (`if (v)`). -/
def truthy : JSValue → Bool
  | .undefined => false
  | .null => false
  | .bool b => b
  | .num n => !(n == 0)
  | .str s => !(s == "")
  | .obj _ => true
  | .arr _ => true
  | .func _ => true

/-- Property access `v[k]` as the library uses it (`data.status`,
`err.code`, `err.message`): field lookup on an object, `undefined`
otherwise.  Objects built by the JSON parser below have unique keys. -/
def getField (v : JSValue) (k : String) : JSValue :=
  match v with
  | .obj fields => ((fields.find? (fun p => p.1 == k)).map Prod.snd).getD .undefined
  | _ => .undefined

/-- String coercion of a value inside a template literal
(the backtick-interpolation on line 61 of src/index.js). -/
def jsDisplay : JSValue → String
  | .undefined => "undefined"
  | .null => "null"
  | .bool b => if b then "true" else "false"
  | .num n => toString n
  | .str s => s
  | .obj _ => "[object Object]"
  | .arr _ => "[array]"
  | .func n => "function " ++ toString n

example : typeofJS .null = "object" := rfl
example : getField (.obj [("a", .num 1), ("b", .str "x")]) "b" = .str "x" := rfl
example : truthy (.str "") = false := rfl

/-! ### Argument normalizer (src/index.js lines 72-84) -/

/-- `splitArgsIntoOptionsAndCallback(args)`: split a variadic argument
list into an options value and a callback value.  `args[i]` on a too-short
JavaScript array yields `undefined`, and an unassigned `let` is
`undefined`, so both outputs default to `undefined`. -/
def splitArgsIntoOptionsAndCallback (args : List JSValue) : JSValue × JSValue :=
  let arg0 := args.getD 0 .undefined
  if args.length > 1 then (arg0, args.getD 1 .undefined)
  else if typeofJS arg0 == "object" then (arg0, .undefined)
  else if typeofJS arg0 == "function" then (.undefined, arg0)
  else (.undefined, .undefined)

/-! ### URL builder (src/index.js lines 93-97) and its external
collaborator, Node's `querystring.stringify`. -/

/-- Hexadecimal digit characters, used by percent-encoding. -/
def hexDigitChar (n : Nat) : Char :=
  "0123456789ABCDEF".toList.getD n "0".toList.headI

/-- UTF-8 encoding of one character as a list of byte values. -/
def utf8Bytes (c : Char) : List Nat :=
  let n := c.toNat
  if n < 128 then [n]
  else if n < 2048 then [192 + n / 64, 128 + n % 64]
  else if n < 65536 then [224 + n / 4096, 128 + (n / 64) % 64, 128 + n % 64]
  else [240 + n / 262144, 128 + (n / 4096) % 64, 128 + (n / 64) % 64, 128 + n % 64]

/-- Characters left unescaped by `querystring.escape`
(alphanumerics and `- _ . ! ~ * ( )` and the apostrophe). -/
def qsUnescaped (c : Char) : Bool :=
  let n := c.toNat
  (48 ≤ n && n ≤ 57) || (65 ≤ n && n ≤ 90) || (97 ≤ n && n ≤ 122) ||
    (n == 45) || (n == 46) || (n == 95) || (n == 126) ||
    (n == 33) || (n == 42) || (n == 39) || (n == 40) || (n == 41)

/-- Percent-encoding of a single character, per `querystring.escape`. -/
def qsEscapeChar (c : Char) : String :=
  if qsUnescaped c then String.singleton c
  else String.join ((utf8Bytes c).map (fun b =>
    "%" ++ String.singleton (hexDigitChar (b / 16)) ++ String.singleton (hexDigitChar (b % 16))))

/-- `querystring.escape` (external collaborator, modelled from Node's
documented application/x-www-form-urlencoded behaviour). -/
def qsEscape (s : String) : String :=
  String.join (s.toList.map qsEscapeChar)

/-- Node's internal `stringifyPrimitive`: strings pass through, numbers
and booleans are stringified, everything else becomes the empty string. -/
def stringifyPrimitive : JSValue → String
  | .str s => s
  | .num n => toString n
  | .bool b => if b then "true" else "false"
  | _ => ""

/-- The `key=value` fragments produced for one options mapping, in
insertion order; an array value contributes one repeated-key fragment
per element. -/
def qsPairs (fields : List (String × JSValue)) : List String :=
  fields.flatMap (fun kv =>
    match kv.2 with
    | .arr es => es.map (fun e => qsEscape kv.1 ++ "=" ++ qsEscape (stringifyPrimitive e))
    | v => [qsEscape kv.1 ++ "=" ++ qsEscape (stringifyPrimitive v)])

/-- `querystring.stringify` (external collaborator): serializes an object
to `&`-joined percent-encoded pairs; any non-object input yields `""`. -/
def qsStringify (options : JSValue) : String :=
  match options with
  | .obj fields => String.intercalate "&" (qsPairs fields)
  | _ => ""

/-- The fixed remote host (src/index.js line 16). -/
def host : String := "https://newsapi.org"

/-- `createUrlFromEndpointAndOptions(endpoint, options)`: appends the
endpoint to the host and, when the serialized query string is truthy
(non-empty), appends it after a `?`. -/
def createUrlFromEndpointAndOptions (endpoint : String) (options : JSValue) : String :=
  let query := qsStringify options
  let baseURL := host ++ endpoint
  if query == "" then baseURL else baseURL ++ "?" ++ query

example :
    createUrlFromEndpointAndOptions "/v2/everything"
      (.obj [("q", .str "tesla"), ("language", .str "en")]) =
      "https://newsapi.org/v2/everything?q=tesla&language=en" := rfl
example : createUrlFromEndpointAndOptions "/v2/everything" .undefined =
    "https://newsapi.org/v2/everything" := rfl
example : qsEscape "a b&c" = "a%20b%26c" := rfl

/-! ### JSON.parse (external collaborator, modelled): a recursive-descent
parser producing a `JSValue`, or the message of the thrown SyntaxError.
Numbers are modelled as integers; duplicate object keys overwrite in
place, as JavaScript property assignment does. -/

/-- Value of one hexadecimal digit character, if any. -/
def hexVal (c : Char) : Option Nat :=
  let n := c.toNat
  if 48 ≤ n && n ≤ 57 then some (n - 48)
  else if 65 ≤ n && n ≤ 70 then some (n - 55)
  else if 97 ≤ n && n ≤ 102 then some (n - 87)
  else none

/-- Drop leading JSON whitespace. -/
def skipWs : List Char → List Char
  | [] => []
  | c :: rest =>
    if c == ' ' || c == Char.ofNat 9 || c == Char.ofNat 10 || c == Char.ofNat 13 then
      skipWs rest
    else c :: rest

/-- Single-character string escapes. -/
def unescapeChar (c : Char) : Option Char :=
  if c == '"' || c == '\\' || c == '/' then some c
  else if c == 'n' then some (Char.ofNat 10)
  else if c == 't' then some (Char.ofNat 9)
  else if c == 'r' then some (Char.ofNat 13)
  else if c == 'b' then some (Char.ofNat 8)
  else if c == 'f' then some (Char.ofNat 12)
  else none

/-- Parse the body of a JSON string literal (after the opening quote),
returning the string and the remaining input. -/
def parseJStr : Nat → List Char → Except String (String × List Char)
  | 0, _ => .error "JSON fuel exhausted"
  | _ + 1, [] => .error "Unterminated string in JSON"
  | fuel + 1, c :: rest =>
    if c == '"' then .ok ("", rest)
    else if c == '\\' then
      match rest with
      | [] => .error "Unterminated string in JSON"
      | e :: rest2 =>
        if e == 'u' then
          match rest2 with
          | h1 :: h2 :: h3 :: h4 :: rest3 =>
            match hexVal h1, hexVal h2, hexVal h3, hexVal h4 with
            | some a, some b, some c2, some d =>
              (parseJStr fuel rest3).map (fun sr =>
                (String.singleton (Char.ofNat (a * 4096 + b * 256 + c2 * 16 + d)) ++ sr.1, sr.2))
            | _, _, _, _ => .error "Bad Unicode escape in JSON"
          | _ => .error "Bad Unicode escape in JSON"
        else
          match unescapeChar e with
          | some c2 => (parseJStr fuel rest2).map (fun sr => (String.singleton c2 ++ sr.1, sr.2))
          | none => .error "Bad escaped character in JSON"
    else (parseJStr fuel rest).map (fun sr => (String.singleton c ++ sr.1, sr.2))

/-- Split off a maximal run of decimal digits. -/
def takeDigits : List Char → List Char × List Char
  | [] => ([], [])
  | c :: rest =>
    if c.isDigit then
      let dr := takeDigits rest
      (c :: dr.1, dr.2)
    else ([], c :: rest)

/-- Numeric value of a digit run. -/
def digitsToNat (ds : List Char) : Nat :=
  ds.foldl (fun acc c => acc * 10 + (c.toNat - 48)) 0

/-- Parse a JSON number (modelled as an integer). -/
def parseNum (input : List Char) : Except String (JSValue × List Char) :=
  match input with
  | [] => .error "Unexpected end of JSON input"
  | c :: rest =>
    if c == '-' then
      let dr := takeDigits rest
      if dr.1.isEmpty then .error "Unexpected token - in JSON"
      else .ok (.num (-(Int.ofNat (digitsToNat dr.1))), dr.2)
    else
      let dr := takeDigits (c :: rest)
      if dr.1.isEmpty then .error ("Unexpected token " ++ String.singleton c ++ " in JSON")
      else .ok (.num (Int.ofNat (digitsToNat dr.1)), dr.2)

/-- Property assignment on an object: overwrites an existing key in
place (keeping its original position), else appends. -/
def setField : List (String × JSValue) → String → JSValue → List (String × JSValue)
  | [], k, v => [(k, v)]
  | (k1, v1) :: rest, k, v =>
    if k1 == k then (k1, v) :: rest else (k1, v1) :: setField rest k v

/-- Parser phase: a value, the items of an array, or the members of an
object (with the accumulator and whether no item has been read yet). -/
inductive PMode : Type where
  | value : PMode
  | arrayItems : List JSValue → Bool → PMode
  | objItems : List (String × JSValue) → Bool → PMode

/-- The JSON parser, structurally recursive on an explicit fuel. -/
def parseF : Nat → PMode → List Char → Except String (JSValue × List Char)
  | 0, _, _ => .error "JSON fuel exhausted"
  | fuel + 1, .value, input =>
    match skipWs input with
    | [] => .error "Unexpected end of JSON input"
    | c :: rest =>
      if c == 'n' then
        match rest with
        | 'u' :: 'l' :: 'l' :: r => .ok (.null, r)
        | _ => .error "Unexpected token n in JSON"
      else if c == 't' then
        match rest with
        | 'r' :: 'u' :: 'e' :: r => .ok (.bool true, r)
        | _ => .error "Unexpected token t in JSON"
      else if c == 'f' then
        match rest with
        | 'a' :: 'l' :: 's' :: 'e' :: r => .ok (.bool false, r)
        | _ => .error "Unexpected token f in JSON"
      else if c == '"' then
        (parseJStr (rest.length + 1) rest).map (fun sr => (.str sr.1, sr.2))
      else if c == '[' then parseF fuel (.arrayItems [] true) rest
      else if c == Char.ofNat 123 then parseF fuel (.objItems [] true) rest
      else parseNum (c :: rest)
  | fuel + 1, .arrayItems acc first, input =>
    match skipWs input with
    | [] => .error "Unexpected end of JSON input"
    | c :: rest =>
      if first && c == ']' then .ok (.arr [], rest)
      else
        match parseF fuel .value (c :: rest) with
        | .error e => .error e
        | .ok (v, r) =>
          match skipWs r with
          | ',' :: r2 => parseF fuel (.arrayItems (v :: acc) false) r2
          | ']' :: r2 => .ok (.arr (v :: acc).reverse, r2)
          | _ => .error "Expected , or ] after array element in JSON"
  | fuel + 1, .objItems acc first, input =>
    match skipWs input with
    | [] => .error "Unexpected end of JSON input"
    | c :: rest =>
      if first && c == Char.ofNat 125 then .ok (.obj [], rest)
      else if c == '"' then
        match parseJStr (rest.length + 1) rest with
        | .error e => .error e
        | .ok (k, r) =>
          match skipWs r with
          | ':' :: r2 =>
            match parseF fuel .value r2 with
            | .error e => .error e
            | .ok (v, r3) =>
              match skipWs r3 with
              | [] => .error "Unexpected end of JSON input"
              | d :: r4 =>
                if d == ',' then parseF fuel (.objItems (setField acc k v) false) r4
                else if d == Char.ofNat 125 then .ok (.obj (setField acc k v), r4)
                else .error "Expected , or end of object in JSON"
          | _ => .error "Expected : after property name in JSON"
      else .error "Expected property name in JSON"

/-- `JSON.parse` on a whole body: parse one value, allow trailing
whitespace only.  `.error` carries the thrown SyntaxError's message. -/
def jsonParse (s : String) : Except String JSValue :=
  let cs := s.toList
  match parseF (2 * cs.length + 2) .value cs with
  | .error e => .error e
  | .ok (v, rest) =>
    match skipWs rest with
    | [] => .ok v
    | c :: _ => .error ("Unexpected token " ++ String.singleton c ++ " in JSON")

example : jsonParse "\x7b\"status\":\"ok\",\"totalResults\":1,\"articles\":[]\x7d" =
    .ok (.obj [("status", .str "ok"), ("totalResults", .num 1), ("articles", .arr [])]) := rfl
example : jsonParse "not json" = .error "Unexpected token n in JSON" := rfl
example : jsonParse "  [1, -2, \"x\"] " = .ok (.arr [.num 1, .num (-2), .str "x"]) := rfl
example : jsonParse "" = .error "Unexpected end of JSON input" := rfl

/-! ### The error type (src/index.js lines 58-64) and the dispatcher
(src/index.js lines 106-129). -/

/-- `class NewsAPIError`: name is the template literal
`NewsAPIError: ${err.code}`, message is `err.message` verbatim. -/
structure NewsAPIError : Type where
  name : String
  message : JSValue

/-- The `NewsAPIError` constructor applied to a parsed envelope. -/
def NewsAPIError.make (err : JSValue) : NewsAPIError :=
  ⟨"NewsAPIError: " ++ jsDisplay (getField err "code"), getField err "message"⟩

/-- An error value as delivered by this library: either a native error
(the transport's error object or a `SyntaxError` from JSON.parse,
modelled by name and message) or a `NewsAPIError`. -/
inductive JSError : Type where
  | native : String → String → JSError
  | newsAPI : NewsAPIError → JSError

/-- Discriminator used to state that an error is not a NewsAPIError. -/
def JSError.isNewsAPI : JSError → Bool
  | .native _ _ => false
  | .newsAPI _ => true

/-- The positional arguments of one invocation of a completion callback:
`cb(err)` is `⟨some err, none⟩`, `cb(null, data)` is `⟨none, some data⟩`. -/
structure CbArgs : Type where
  error : Option JSError
  data : Option JSValue

/-- The behaviour of a supplied callback: for given arguments it either
returns normally (`none`) or throws an exception (`some e`). -/
def CbBehavior : Type := CbArgs → Option JSError

/-- The externally supplied outcome of the single `request.get`: either a
truthy transport error or a response body string. -/
inductive TransportResult : Type where
  | failure : JSError → TransportResult
  | success : String → TransportResult

/-- Everything observable about one run of the response handler: the list
of callback invocations in order, whether/how the promise created by the
dispatcher settled (`none` = still pending), and any exception that
escaped the handler uncaught. -/
structure DispatchTrace : Type where
  cbCalls : List CbArgs
  promiseOutcome : Option (Except JSError JSValue)
  uncaught : Option JSError

/-- The error-delivery code shape shared by lines 114-116 and 123-126:
`if (useCallback) return cb(e); return reject(e);` — the `cb(e)` call is
not inside any try, so an exception it throws escapes uncaught. -/
def deliverErr (useCallback : Bool) (behavior : CbBehavior) (e : JSError) : DispatchTrace :=
  if useCallback then
    let args : CbArgs := ⟨some e, none⟩
    ⟨[args], none, behavior args⟩
  else ⟨[], some (.error e), none⟩

/-- The strict comparison `data.status === 'error'` (line 120). -/
def isErrorStatus (v : JSValue) : Bool :=
  match v with
  | .str s => s == "error"
  | _ => false

/-- The `try`/`catch` block of the handler (lines 118-126), run on a
transport-success body.  Note that `cb(null, data)` on line 121 sits
inside the `try` block: if the callback itself throws, the `catch` on
line 123 re-enters the callback with the thrown exception. -/
def handleBody (useCallback : Bool) (behavior : CbBehavior) (body : String) : DispatchTrace :=
  match jsonParse body with
  | .error msg => deliverErr useCallback behavior (.native "SyntaxError" msg)
  | .ok data =>
    if isErrorStatus (getField data "status") then
      deliverErr useCallback behavior (.newsAPI (NewsAPIError.make data))
    else if useCallback then
      let args : CbArgs := ⟨none, some data⟩
      match behavior args with
      | none => ⟨[args], none, none⟩
      | some ex =>
        let args2 : CbArgs := ⟨some ex, none⟩
        ⟨[args, args2], none, behavior args2⟩
    else ⟨[], some (.ok data), none⟩

/-- The `request.get` completion handler (lines 113-127), as a function
of the transport result. -/
def handleResponse (useCallback : Bool) (behavior : CbBehavior) :
    TransportResult → DispatchTrace
  | .failure e => deliverErr useCallback behavior e
  | .success body => handleBody useCallback behavior body

/-- The options object passed to `request.get` (lines 109-112): the URL,
plus the `X-Api-Key` header exactly when the credential is truthy. -/
structure ReqOptions : Type where
  url : String
  headers : Option (String × JSValue)

/-- `getDataFromWeb(url, apiKey, cb)` (lines 106-129): decides the
delivery mode once from `typeof cb`, builds the request options, and
(once the transport completes with `tr`) runs the response handler.
Returns the request options and the observable trace. -/
def getDataFromWeb (url : String) (apiKey : JSValue) (cb : JSValue)
    (behavior : CbBehavior) (tr : TransportResult) : ReqOptions × DispatchTrace :=
  let useCallback := typeofJS cb == "function"
  let options : ReqOptions :=
    ⟨url, if truthy apiKey then some ("X-Api-Key", apiKey) else none⟩
  (options, handleResponse useCallback behavior tr)

/-! ### The Facade (src/index.js lines 20-56).  The credential is the
module-level `let API_KEY` (line 18), modelled as explicit module state;
client instances own no credential field, every method reads the module
variable at call time. -/

/-- The module-level mutable state: `let API_KEY` (initially undefined). -/
structure ModuleState : Type where
  API_KEY : JSValue

/-- The state of the freshly loaded module. -/
def initialModuleState : ModuleState := ⟨.undefined⟩

/-- `new NewsAPI(apiKey)` (lines 21-23): throws when the key is falsy,
otherwise overwrites the module-level credential. -/
def NewsAPI.construct (apiKey : JSValue) (_st : ModuleState) : Except JSError ModuleState :=
  if truthy apiKey then .ok ⟨apiKey⟩
  else .error (.native "Error" "No API key specified")

/-- `this.v2.topHeadlines(...args)` (lines 25-29): options default to
`\x7b language: 'en' \x7d` when undefined. -/
def NewsAPI.v2.topHeadlines (st : ModuleState) (args : List JSValue)
    (behavior : CbBehavior) (tr : TransportResult) : ReqOptions × DispatchTrace :=
  let oc := splitArgsIntoOptionsAndCallback args
  let options := match oc.1 with
    | .undefined => JSValue.obj [("language", .str "en")]
    | o => o
  let url := createUrlFromEndpointAndOptions "/v2/top-headlines" options
  getDataFromWeb url st.API_KEY oc.2 behavior tr

/-- `this.v2.everything(...args)` (lines 31-35). -/
def NewsAPI.v2.everything (st : ModuleState) (args : List JSValue)
    (behavior : CbBehavior) (tr : TransportResult) : ReqOptions × DispatchTrace :=
  let oc := splitArgsIntoOptionsAndCallback args
  let url := createUrlFromEndpointAndOptions "/v2/everything" oc.1
  getDataFromWeb url st.API_KEY oc.2 behavior tr

/-- `this.v2.sources(...args)` (lines 37-41). -/
def NewsAPI.v2.sources (st : ModuleState) (args : List JSValue)
    (behavior : CbBehavior) (tr : TransportResult) : ReqOptions × DispatchTrace :=
  let oc := splitArgsIntoOptionsAndCallback args
  let url := createUrlFromEndpointAndOptions "/v2/sources" oc.1
  getDataFromWeb url st.API_KEY oc.2 behavior tr

/-- Legacy `sources(...args)` (lines 45-49): dispatches with `null` as
the credential. -/
def NewsAPI.sources (st : ModuleState) (args : List JSValue)
    (behavior : CbBehavior) (tr : TransportResult) : ReqOptions × DispatchTrace :=
  let _ := st
  let oc := splitArgsIntoOptionsAndCallback args
  let url := createUrlFromEndpointAndOptions "/v1/sources" oc.1
  getDataFromWeb url .null oc.2 behavior tr

/-- Legacy `articles(...args)` (lines 51-55): dispatches with the
module-level credential. -/
def NewsAPI.articles (st : ModuleState) (args : List JSValue)
    (behavior : CbBehavior) (tr : TransportResult) : ReqOptions × DispatchTrace :=
  let oc := splitArgsIntoOptionsAndCallback args
  let url := createUrlFromEndpointAndOptions "/v1/articles" oc.1
  getDataFromWeb url st.API_KEY oc.2 behavior tr

/-! ### Predicates taken from the specification's words, for comparison
with the source's behaviour. -/

/-- A mapping in the spec's sense: an object holding keyed fields. -/
def isMapping : JSValue → Bool
  | .obj _ => true
  | _ => false

/-- Invocable in the spec's sense: a function value. -/
def isInvocable : JSValue → Bool
  | .func _ => true
  | _ => false

/-- An array value (used to state side conditions on options values). -/
def isArr : JSValue → Bool
  | .arr _ => true
  | _ => false

/-! ### Helper lemmas -/

/-- The accumulator of `String.intercalate.go` is never shortened. -/
theorem intercalate_go_length (s : String) (as : List String) (acc : String) :
    acc.length ≤ (String.intercalate.go acc s as).length := by
  induction as generalizing acc with
  | nil => simp [String.intercalate.go]
  | cons a as ih =>
    refine le_trans ?_ (ih (acc ++ s ++ a))
    simp [String.length_append]
    omega

/-- Under array-free options values, each key contributes exactly one
`key=value` fragment, in insertion order. -/
theorem qsPairs_no_arr (fields : List (String × JSValue))
    (h : ∀ p ∈ fields, isArr p.2 = false) :
    qsPairs fields =
      fields.map (fun kv => qsEscape kv.1 ++ "=" ++ qsEscape (stringifyPrimitive kv.2)) := by
  induction fields with
  | nil => rfl
  | cons kv rest ih =>
    have h1 : isArr kv.2 = false := h kv (List.mem_cons_self kv rest)
    have h2 := ih (fun p hp => h p (List.mem_cons_of_mem kv hp))
    cases hv : kv.2 <;> simp_all [qsPairs, isArr]

/-- A serialized non-empty array-free options object is a non-empty
query string (every fragment contains at least the `=`). -/
theorem qsStringify_ne_empty (kv : String × JSValue) (rest : List (String × JSValue))
    (h : ∀ p ∈ kv :: rest, isArr p.2 = false) :
    ¬ qsStringify (.obj (kv :: rest)) = "" := by
  intro hempty
  have hq := qsPairs_no_arr (kv :: rest) h
  have : qsStringify (.obj (kv :: rest)) =
      String.intercalate "&"
        ((kv :: rest).map (fun p => qsEscape p.1 ++ "=" ++ qsEscape (stringifyPrimitive p.2))) := by
    simp [qsStringify, hq]
  rw [this] at hempty
  have hlen : (qsEscape kv.1 ++ "=" ++ qsEscape (stringifyPrimitive kv.2)).length ≤
      (String.intercalate "&"
        ((kv :: rest).map (fun p => qsEscape p.1 ++ "=" ++ qsEscape (stringifyPrimitive p.2)))).length := by
    simp only [List.map_cons, String.intercalate]
    exact intercalate_go_length _ _ _
  rw [hempty] at hlen
  simp [String.length_append] at hlen
  exact absurd hlen.1.2 (by decide)

/-! ### Claims -/

/-- Claim C5 counterexample.  The claim states that when the single
argument is neither a mapping nor invocable, both outputs are undefined.
`null` is neither a mapping nor invocable, yet
`splitArgsIntoOptionsAndCallback` returns it as the options value,
because JavaScript's `typeof null` is `"object"`. -/
theorem C5_counterexample :
    isMapping JSValue.null = false ∧ isInvocable JSValue.null = false ∧
    splitArgsIntoOptionsAndCallback [JSValue.null] = (JSValue.null, JSValue.undefined) ∧
    JSValue.null ≠ JSValue.undefined :=
  ⟨rfl, rfl, rfl, fun h => JSValue.noConfusion h⟩

/-- Claim C5, amended.  For every argument list of length 0-2 the
normalizer returns: the pair `(args[0], args[1])` when two arguments are
given; `(arg, undefined)` when the single argument has JavaScript
`typeof` `"object"` (which includes `null`); `(undefined, arg)` when the
single argument is of `typeof` `"function"`; and `(undefined, undefined)`
when no argument is given or the single argument has any other `typeof`.
It is a pure function (a Lean function of its arguments alone). -/
theorem C5_splitArgs_shapes :
    splitArgsIntoOptionsAndCallback [] = (JSValue.undefined, JSValue.undefined) ∧
    (∀ a : JSValue, splitArgsIntoOptionsAndCallback [a] =
      if typeofJS a == "object" then (a, JSValue.undefined)
      else if typeofJS a == "function" then (JSValue.undefined, a)
      else (JSValue.undefined, JSValue.undefined)) ∧
    (∀ a b : JSValue, splitArgsIntoOptionsAndCallback [a, b] = (a, b)) := by
  refine ⟨rfl, fun a => ?_, fun a b => rfl⟩
  simp [splitArgsIntoOptionsAndCallback]

/-- Claim C6.  The URL builder returns `<host><path>` with no `?` when the
options mapping is empty or undefined, and otherwise
`<host><path>?<query>` where the query is the percent-encoded
`key=value` fragments of the mapping joined by `&` in insertion order
(stated for array-free option values, the spec's data model for
options).  Determinism holds because it is a Lean function. -/
theorem C6_createUrl (endpoint : String) (fields : List (String × JSValue))
    (harr : ∀ p ∈ fields, isArr p.2 = false) :
    createUrlFromEndpointAndOptions endpoint .undefined = host ++ endpoint ∧
    createUrlFromEndpointAndOptions endpoint (.obj []) = host ++ endpoint ∧
    (fields ≠ [] →
      createUrlFromEndpointAndOptions endpoint (.obj fields) =
        host ++ endpoint ++ "?" ++
          String.intercalate "&"
            (fields.map (fun kv => qsEscape kv.1 ++ "=" ++ qsEscape (stringifyPrimitive kv.2)))) := by
  refine ⟨rfl, rfl, fun hne => ?_⟩
  match fields, hne with
  | kv :: rest, _ =>
    have hq := qsPairs_no_arr (kv :: rest) harr
    have hne2 := qsStringify_ne_empty kv rest harr
    simp only [createUrlFromEndpointAndOptions, qsStringify, hq] at *
    rw [if_neg]
    intro hbeq
    exact hne2 (by simpa using hbeq)

/-- Claim C6 witness.  The spec's round-trip example: options
`q=tesla, language=en` on `/v2/everything`, and the empty mapping. -/
theorem C6_createUrl_witness :
    createUrlFromEndpointAndOptions "/v2/everything"
        (.obj [("q", .str "tesla"), ("language", .str "en")]) =
      "https://newsapi.org/v2/everything?q=tesla&language=en" ∧
    createUrlFromEndpointAndOptions "/v2/everything" (.obj []) =
      "https://newsapi.org/v2/everything" := by
  have h := C6_createUrl "/v2/everything" [("q", .str "tesla"), ("language", .str "en")]
    (by intro p hp; simp at hp; rcases hp with rfl | rfl <;> rfl)
  refine ⟨?_, h.2.1⟩
  rw [h.2.2 (by simp)]
  rfl

/-- Claim C7.  `topHeadlines` called with no arguments, and with only a
callback, builds the URL `<host>/v2/top-headlines?language=en`: the
options default to the mapping `language=en` when undefined, so the
query string contains `language=en`. -/
theorem C7_topHeadlines_default_language (st : ModuleState) (behavior : CbBehavior)
    (tr : TransportResult) (n : Nat) :
    (NewsAPI.v2.topHeadlines st [] behavior tr).1.url =
      "https://newsapi.org/v2/top-headlines?language=en" ∧
    (NewsAPI.v2.topHeadlines st [.func n] behavior tr).1.url =
      "https://newsapi.org/v2/top-headlines?language=en" :=
  ⟨rfl, rfl⟩

/-- Claim C9.  The outgoing request carries the `X-Api-Key` header exactly
when the supplied credential is truthy; legacy `sources` dispatches with
`null` and sends no header, while the v2 methods and legacy `articles`
dispatch with the stored module credential. -/
theorem C9_auth_header (url : String) (k cb : JSValue) (behavior : CbBehavior)
    (tr : TransportResult) (st : ModuleState) (args : List JSValue) :
    ((getDataFromWeb url k cb behavior tr).1.headers =
        (if truthy k then some ("X-Api-Key", k) else none)) ∧
    ((getDataFromWeb url k cb behavior tr).1.headers.isSome = truthy k) ∧
    (NewsAPI.sources st args behavior tr).1.headers = none ∧
    ((NewsAPI.articles st args behavior tr).1.headers =
      (if truthy st.API_KEY then some ("X-Api-Key", st.API_KEY) else none)) ∧
    ((NewsAPI.v2.topHeadlines st args behavior tr).1.headers =
      (if truthy st.API_KEY then some ("X-Api-Key", st.API_KEY) else none)) ∧
    ((NewsAPI.v2.everything st args behavior tr).1.headers =
      (if truthy st.API_KEY then some ("X-Api-Key", st.API_KEY) else none)) ∧
    ((NewsAPI.v2.sources st args behavior tr).1.headers =
      (if truthy st.API_KEY then some ("X-Api-Key", st.API_KEY) else none)) := by
  refine ⟨rfl, ?_, rfl, rfl, rfl, rfl, rfl⟩
  by_cases h : truthy k = true <;> simp [getDataFromWeb, h]

/-- Claim C10.  The credential lives in the single module-level variable
`API_KEY`, not on the instance (the embedding's `ModuleState` is that
variable; instances carry no credential field, mirroring the source).
Constructing a second client with a different non-empty key overwrites
it, and an authenticated request issued afterwards — including through
the first instance, whose methods read the same module variable —
carries the second key, never the first. -/
theorem C10_module_level_credential (k1 k2 : JSValue) (st0 st1 st2 : ModuleState)
    (args : List JSValue) (behavior : CbBehavior) (tr : TransportResult)
    (h1 : NewsAPI.construct k1 st0 = .ok st1)
    (h2 : NewsAPI.construct k2 st1 = .ok st2)
    (hne : k1 ≠ k2) :
    st1.API_KEY = k1 ∧ st2.API_KEY = k2 ∧
    (NewsAPI.articles st2 args behavior tr).1.headers = some ("X-Api-Key", k2) ∧
    (NewsAPI.articles st2 args behavior tr).1.headers ≠ some ("X-Api-Key", k1) := by
  unfold NewsAPI.construct at h1 h2
  by_cases hk1 : truthy k1 = true
  · by_cases hk2 : truthy k2 = true
    · rw [if_pos hk1] at h1
      rw [if_pos hk2] at h2
      cases h1
      cases h2
      refine ⟨rfl, rfl, ?_, ?_⟩
      · simp [NewsAPI.articles, getDataFromWeb, hk2]
      · simp [NewsAPI.articles, getDataFromWeb, hk2]
        exact fun h => absurd h.symm hne
    · rw [if_neg (by simpa using hk2)] at h2
      cases h2
  · rw [if_neg (by simpa using hk1)] at h1
    cases h1

/-- Claim C10 witness. -/
theorem C10_module_level_credential_witness :
    NewsAPI.construct (.str "key-one") initialModuleState = .ok ⟨.str "key-one"⟩ ∧
    NewsAPI.construct (.str "key-two") ⟨.str "key-one"⟩ = .ok ⟨.str "key-two"⟩ ∧
    (NewsAPI.articles ⟨.str "key-two"⟩ [] (fun _ => none)
        (.success "")).1.headers = some ("X-Api-Key", .str "key-two") := by
  refine ⟨rfl, rfl, ?_⟩
  have h := C10_module_level_credential (.str "key-one") (.str "key-two")
    initialModuleState ⟨.str "key-one"⟩ ⟨.str "key-two"⟩ [] (fun _ => none)
    (.success "") rfl rfl
    (by intro h; injection h with h2; exact absurd h2 (by decide))
  exact h.2.2.1

/-- Case characterization of a callback-mode run of the response
handler: either one error delivery `cb(e)`, or one success delivery
`cb(null, data)` that returns normally, or — when the callback throws
on its success invocation — the success delivery followed by a second
invocation carrying the thrown exception. -/
theorem handleResponse_cb_cases (behavior : CbBehavior) (tr : TransportResult) :
    (∃ e, handleResponse true behavior tr =
        ⟨[⟨some e, none⟩], none, behavior ⟨some e, none⟩⟩) ∨
    (∃ d, behavior ⟨none, some d⟩ = none ∧
        handleResponse true behavior tr = ⟨[⟨none, some d⟩], none, none⟩) ∨
    (∃ d ex, behavior ⟨none, some d⟩ = some ex ∧
        handleResponse true behavior tr =
          ⟨[⟨none, some d⟩, ⟨some ex, none⟩], none, behavior ⟨some ex, none⟩⟩) := by
  cases tr with
  | failure e => exact Or.inl ⟨e, rfl⟩
  | success body =>
    cases hp : jsonParse body with
    | error msg =>
      exact Or.inl ⟨.native "SyntaxError" msg,
        by simp [handleResponse, handleBody, hp, deliverErr]⟩
    | ok data =>
      by_cases hs : isErrorStatus (getField data "status") = true
      · exact Or.inl ⟨.newsAPI (NewsAPIError.make data),
          by simp [handleResponse, handleBody, hp, hs, deliverErr]⟩
      · cases hb : behavior ⟨none, some data⟩ with
        | none =>
          exact Or.inr (Or.inl ⟨data, hb,
            by simp [handleResponse, handleBody, hp, hs, hb]⟩)
        | some ex =>
          exact Or.inr (Or.inr ⟨data, ex, hb,
            by simp [handleResponse, handleBody, hp, hs, hb]⟩)

/-- Claim C1 counterexample.  A concrete call with a callback supplied and
a successful transport: the callback receives the success value, but the
returned future does not settle — its outcome is still `none` — contrary
to the claim that the future settles consistently with the callback. -/
theorem C1_counterexample :
    (getDataFromWeb "https://newsapi.org/v1/sources" .null (.func 0) (fun _ => none)
        (.success "\x7b\"status\":\"ok\"\x7d")).2.cbCalls =
      [⟨none, some (.obj [("status", .str "ok")])⟩] ∧
    (getDataFromWeb "https://newsapi.org/v1/sources" .null (.func 0) (fun _ => none)
        (.success "\x7b\"status\":\"ok\"\x7d")).2.promiseOutcome = none :=
  ⟨rfl, rfl⟩

/-- Claim C1, amended.  For every dispatcher call in which a callback was
supplied (the `cb` argument is invocable), the future returned by the
method never settles at all — it neither resolves nor rejects for any
transport outcome; the outcome reaches the caller only through the
callback. -/
theorem C1_future_never_settles_with_callback (url : String) (apiKey cb : JSValue)
    (behavior : CbBehavior) (tr : TransportResult) (h : typeofJS cb = "function") :
    (getDataFromWeb url apiKey cb behavior tr).2.promiseOutcome = none := by
  have hb : (typeofJS cb == "function") = true := by rw [h]; rfl
  show (handleResponse (typeofJS cb == "function") behavior tr).promiseOutcome = none
  rw [hb]
  rcases handleResponse_cb_cases behavior tr with ⟨e, he⟩ | ⟨d, _, he⟩ | ⟨d, ex, _, he⟩ <;>
    rw [he]

/-- Claim C1 witness. -/
theorem C1_future_never_settles_witness :
    typeofJS (.func 0) = "function" ∧
    (getDataFromWeb "https://newsapi.org/v2/everything" .null (.func 0) (fun _ => none)
        (.failure (.native "Error" "socket hang up"))).2.promiseOutcome = none :=
  ⟨rfl, C1_future_never_settles_with_callback "https://newsapi.org/v2/everything" .null
    (.func 0) (fun _ => none) (.failure (.native "Error" "socket hang up")) rfl⟩

/-- Claim C2.  When the completion callback is invocable, every outcome of
every transport result is delivered by invoking the callback with
(error, data)-style positional arguments — exactly one of the two
populated per invocation — and the promise created by the dispatcher is
never resolved and never rejected.  The delivery mode depends only on
`typeof cb`, fixed before the request is issued (the conclusion holds
uniformly over the transport result `tr`). -/
theorem C2_callback_channel (url : String) (apiKey cb : JSValue) (behavior : CbBehavior)
    (h : typeofJS cb = "function") :
    ∀ tr : TransportResult,
      (getDataFromWeb url apiKey cb behavior tr).2.promiseOutcome = none ∧
      (getDataFromWeb url apiKey cb behavior tr).2.cbCalls ≠ [] ∧
      ∀ c ∈ (getDataFromWeb url apiKey cb behavior tr).2.cbCalls,
        (∃ e, c.error = some e ∧ c.data = none) ∨
        (c.error = none ∧ ∃ d, c.data = some d) := by
  intro tr
  have hb : (typeofJS cb == "function") = true := by rw [h]; rfl
  show (handleResponse (typeofJS cb == "function") behavior tr).promiseOutcome = none ∧
    (handleResponse (typeofJS cb == "function") behavior tr).cbCalls ≠ [] ∧
    ∀ c ∈ (handleResponse (typeofJS cb == "function") behavior tr).cbCalls,
      (∃ e, c.error = some e ∧ c.data = none) ∨
      (c.error = none ∧ ∃ d, c.data = some d)
  rw [hb]
  rcases handleResponse_cb_cases behavior tr with ⟨e, he⟩ | ⟨d, _, he⟩ | ⟨d, ex, _, he⟩ <;>
    rw [he]
  · refine ⟨rfl, by simp, ?_⟩
    intro c hc
    simp at hc
    subst hc
    exact Or.inl ⟨e, rfl, rfl⟩
  · refine ⟨rfl, by simp, ?_⟩
    intro c hc
    simp at hc
    subst hc
    exact Or.inr ⟨rfl, d, rfl⟩
  · refine ⟨rfl, by simp, ?_⟩
    intro c hc
    simp at hc
    rcases hc with rfl | rfl
    · exact Or.inr ⟨rfl, d, rfl⟩
    · exact Or.inl ⟨ex, rfl, rfl⟩

/-- Claim C2 witness. -/
theorem C2_callback_channel_witness :
    typeofJS (.func 1) = "function" ∧
    (getDataFromWeb "https://newsapi.org/v2/sources" .null (.func 1) (fun _ => none)
        (.success "\x7b\"status\":\"ok\"\x7d")).2.promiseOutcome = none :=
  ⟨rfl, (C2_callback_channel "https://newsapi.org/v2/sources" .null (.func 1)
    (fun _ => none) rfl (.success "\x7b\"status\":\"ok\"\x7d")).1⟩

/-- Claim C3, a code bug.  One dispatch, one transport result, a callback
that throws when invoked with the success value: the callback is
invoked twice — `cb(null, data)` on line 121 sits inside the `try`
block, so the `catch` on line 123 re-invokes `cb` with the exception the
callback itself threw.  This contradicts the claim (and the spec's
"exactly one outcome through exactly one channel, exactly once"). -/
theorem C3_callback_invoked_twice :
    (handleResponse true
        (fun c => match c.error with
          | none => some (.native "Error" "boom")
          | some _ => none)
        (.success "\x7b\"status\":\"ok\"\x7d")).cbCalls =
      [⟨none, some (.obj [("status", .str "ok")])⟩,
       ⟨some (.native "Error" "boom"), none⟩] ∧
    (handleResponse true
        (fun c => match c.error with
          | none => some (.native "Error" "boom")
          | some _ => none)
        (.success "\x7b\"status\":\"ok\"\x7d")).cbCalls.length = 2 :=
  ⟨rfl, rfl⟩

/-- Claim C4.  Whenever the body parses as JSON whose `status` field is the
string "error", both delivery modes deliver (only) an error outcome: the
`NewsAPIError` whose name is the template `NewsAPIError: ${err.code}`
over the envelope's `code` field and whose message is the envelope's
`message` field verbatim. -/
theorem C4_remote_error_envelope (behavior : CbBehavior) (body : String) (data : JSValue)
    (hp : jsonParse body = .ok data)
    (hs : getField data "status" = .str "error") :
    (NewsAPIError.make data).name = "NewsAPIError: " ++ jsDisplay (getField data "code") ∧
    (NewsAPIError.make data).message = getField data "message" ∧
    (handleResponse true behavior (.success body)).cbCalls =
      [⟨some (.newsAPI (NewsAPIError.make data)), none⟩] ∧
    (handleResponse false behavior (.success body)).promiseOutcome =
      some (.error (.newsAPI (NewsAPIError.make data))) ∧
    (handleResponse false behavior (.success body)).cbCalls = [] := by
  have hst : isErrorStatus (getField data "status") = true := by rw [hs]; rfl
  refine ⟨rfl, rfl, ?_, ?_, ?_⟩ <;> simp [handleResponse, handleBody, hp, hst, deliverErr]

/-- Claim C4 witness.  The spec's example envelope. -/
theorem C4_remote_error_envelope_witness :
    jsonParse "\x7b\"status\":\"error\",\"code\":\"apiKeyInvalid\",\"message\":\"bad key\"\x7d" =
      .ok (.obj [("status", .str "error"), ("code", .str "apiKeyInvalid"),
        ("message", .str "bad key")]) ∧
    (handleResponse false (fun _ => none)
        (.success
          "\x7b\"status\":\"error\",\"code\":\"apiKeyInvalid\",\"message\":\"bad key\"\x7d")).promiseOutcome =
      some (.error (.newsAPI ⟨"NewsAPIError: apiKeyInvalid", .str "bad key"⟩)) :=
  ⟨rfl, (C4_remote_error_envelope (fun _ => none)
    "\x7b\"status\":\"error\",\"code\":\"apiKeyInvalid\",\"message\":\"bad key\"\x7d"
    (.obj [("status", .str "error"), ("code", .str "apiKeyInvalid"),
      ("message", .str "bad key")]) rfl rfl).2.2.2.1⟩

/-- Claim C8.  A transport-level failure is delivered as the very error the
transport produced, and a non-JSON body is delivered as the native
SyntaxError thrown by parsing — in both delivery modes, and never as a
NewsAPIError. -/
theorem C8_native_errors_unwrapped (behavior : CbBehavior) (e : JSError) (body msg : String)
    (hp : jsonParse body = .error msg) :
    (handleResponse false behavior (.failure e)).promiseOutcome = some (.error e) ∧
    (handleResponse true behavior (.failure e)).cbCalls = [⟨some e, none⟩] ∧
    (handleResponse false behavior (.success body)).promiseOutcome =
      some (.error (.native "SyntaxError" msg)) ∧
    (handleResponse true behavior (.success body)).cbCalls =
      [⟨some (.native "SyntaxError" msg), none⟩] ∧
    (JSError.native "SyntaxError" msg).isNewsAPI = false := by
  refine ⟨rfl, rfl, ?_, ?_, rfl⟩ <;> simp [handleResponse, handleBody, hp, deliverErr]

/-- Claim C8 witness. -/
theorem C8_native_errors_witness :
    jsonParse "not json" = .error "Unexpected token n in JSON" ∧
    (handleResponse false (fun _ => none)
        (.failure (.native "Error" "connect ECONNREFUSED"))).promiseOutcome =
      some (.error (.native "Error" "connect ECONNREFUSED")) ∧
    (handleResponse false (fun _ => none) (.success "not json")).promiseOutcome =
      some (.error (.native "SyntaxError" "Unexpected token n in JSON")) := by
  have h := C8_native_errors_unwrapped (fun _ => none)
    (.native "Error" "connect ECONNREFUSED") "not json" "Unexpected token n in JSON" rfl
  exact ⟨rfl, h.1, h.2.2.1⟩
